import Mathlib

/-!
# Shallow embedding of the fastpasta data-plane core

Definitions are translated from the Rust sources of the repository:
configuration validation (`fastpasta/src/config/lib.rs`, `src/util/config.rs`),
the validator dispatcher (`fastpasta/src/analyze/validators/validator_dispatcher.rs`),
exit-code selection (`src/main.rs`), and the ALPIDE lane decoder and
cross-lane bunch-counter validation
(`src/analyze/validators/its/alpide_words.rs`, `src/analyze/validators/its/alpide.rs`).

Machine integers (`u8`, `u16`, `usize`) are modelled as `Nat`; none of the
translated code paths overflow.  Fallible Rust functions returning
`Result<T, E>` are modelled with `Except`; a Rust panic reachable in a
translated function is modelled by an `Option` layer (`none` = panic).
-/

namespace Fastpasta

/-! ## Configuration model (`fastpasta/src/config/check.rs` types, used by
`fastpasta/src/config/lib.rs` and the dispatcher) -/

/-- Target systems for checks (`enum System { ITS, ITS_Stave }`). -/
inductive System where
  | ITS
  | ITS_Stave
deriving DecidableEq, Repr

/-- `enum CheckCommands { All { system: Option<System> }, Sanity { system: Option<System> } }`. -/
inductive CheckCommands where
  | All (system : Option System)
  | Sanity (system : Option System)
deriving DecidableEq, Repr

/-- `Check::target` (src/util/config.rs:224): the optional target system of a check command. -/
def CheckCommands.target : CheckCommands → Option System
  | .All system => system
  | .Sanity system => system

/-- The accessors of the `Config` super-trait that `validate_args` reads
(`check()`, `check_its_trigger_period()`, `any_errors_exit_code()`, `input_stats_file()`). -/
structure Config where
  check : Option CheckCommands
  check_its_trigger_period : Option Nat
  any_errors_exit_code : Option Nat
  input_stats_file : Option String
deriving DecidableEq, Repr

/-- The two trailing checks of `validate_args` (fastpasta/src/config/lib.rs:44-56):
`any_errors_exit_code` must not be 0 and `input_stats_file` must end in
`.json` or `.toml`. -/
def Config.validate_args_tail (cfg : Config) : Except String Unit :=
  if (match cfg.any_errors_exit_code with
      | some val => val == 0
      | none => false) then
    Except.error "Invalid config: Exit code for any errors cannot be 0"
  else if (match cfg.input_stats_file with
      | some path => !(path.endsWith ".json") && !(path.endsWith ".toml")
      | none => false) then
    Except.error "Invalid config: Input stats file has to have .json or .toml file-extension"
  else
    Except.ok ()

/-- `Config::validate_args` (fastpasta/src/config/lib.rs:21-57). -/
def Config.validate_args (cfg : Config) : Except String Unit :=
  match cfg.check with
  | some check =>
    match check.target with
    | some target =>
      if (match check with
          | CheckCommands.Sanity system => system == some System.ITS_Stave
          | _ => false) then
        Except.error "Invalid config: Cannot check ITS stave with `check sanity`, instead use `check all its-stave`"
      else if !(target == System.ITS_Stave) && cfg.check_its_trigger_period.isSome then
        Except.error "Invalid config: Specifying trigger period has to be done with the `check all its-stave` command"
      else
        cfg.validate_args_tail
    | none =>
      if cfg.check_its_trigger_period.isSome then
        Except.error "Invalid config: Specifying trigger period has to be done with the `check all its-stave` command"
      else
        cfg.validate_args_tail
  | none =>
    if cfg.check_its_trigger_period.isSome then
      Except.error "Invalid config: Specifying trigger period has to be done with the `check all its-stave` command"
    else
      cfg.validate_args_tail

/-- `Config::alpide_checks_enabled` (fastpasta/src/config/lib.rs:60-62). -/
def Config.alpide_checks_enabled (cfg : Config) : Bool :=
  match cfg.check with
  | some (CheckCommands.All (some System.ITS_Stave)) => true
  | _ => false

/-! ## `skip_payload` (src/util/config.rs:173-185, older CLI surface) -/

/-- `enum View { Rdh, Hbf, ItsReadoutFrames }` (src/util/config.rs:235-245). -/
inductive View where
  | Rdh
  | Hbf
  | ItsReadoutFrames
deriving DecidableEq, Repr

/-- `struct Target { system: Option<System> }` (src/util/config.rs:249-253). -/
structure CheckTarget where
  system : Option System
deriving DecidableEq, Repr

/-- `enum Check { All(Target), Sanity(Target) }` (src/util/config.rs:213-220). -/
inductive Check where
  | All (target : CheckTarget)
  | Sanity (target : CheckTarget)
deriving DecidableEq, Repr

/-- `enum DataOutputMode { Stdout, File, None }` (src/util/lib.rs). -/
inductive DataOutputMode where
  | Stdout
  | File
  | None
deriving DecidableEq, Repr

/-- `Cfg::skip_payload` (src/util/config.rs:173-185): a three-way match on
`(view(), check(), output_mode())`, with the guarded middle arms requiring
the check target system to be absent. -/
def skip_payload (view : Option View) (check : Option Check) (om : DataOutputMode) : Bool :=
  match view, check, om with
  | some View.Rdh, _, _ => true
  | _, some (Check.All target), _ => if target.system = none then true else false
  | _, some (Check.Sanity target), _ => if target.system = none then true else false
  | _, _, _ => false

/-! ## Exit-code selection (src/main.rs) -/

/-- `init_processing` (src/main.rs:62-117), modelled from the point where the
RDH version has been read: the version-dispatched run is abstracted by its
result `process_result` (the outcome of `fastpasta::process::<RdhCRU<V>>`).
Returns the numeric exit code. -/
def init_processing (rdh_version : Nat) (process_result : Except String Unit) : Nat :=
  if rdh_version = 6 then
    match process_result with
    | Except.ok _ => 0
    | Except.error _ => 2
  else if rdh_version = 7 then
    match process_result with
    | Except.ok _ => 0
    | Except.error _ => 2
  else
    3

/-- `main` (src/main.rs:16-40), modelled from the outcome of `init_reader`
(`reader`), the first RDH's `header_id` and the processing outcome.
Returns the numeric exit code. -/
def main_exit (reader : Except String Unit) (rdh_version : Nat)
    (process_result : Except String Unit) : Nat :=
  match reader with
  | Except.ok _ => init_processing rdh_version process_result
  | Except.error _ => 1

/-! ## Validator dispatcher (fastpasta/src/analyze/validators/validator_dispatcher.rs) -/

/-- `dispatch_cdp_batch` id derivation (validator_dispatcher.rs:42-54):
dispatch by full FEE id exactly when the configured check is
`All { system: Some(ITS_Stave) }`, else by link id widened to 16 bits. -/
def dispatch_id (check : Option CheckCommands) (fee_id link_id : Nat) : Nat :=
  if (match check with
      | some (CheckCommands.All system) => system == some System.ITS_Stave
      | _ => false) then
    fee_id
  else
    link_id

/-- Dispatcher state relevant to routing: the list of known `DispatchId`s
(`processors`) and, for each worker channel, the sequence of tuples sent on
it (`process_channels`, a tuple abstracted as a `Nat`). -/
structure DispState where
  processors : List Nat
  channels : List (List Nat)
deriving DecidableEq, Repr

/-- A freshly constructed `ValidatorDispatcher` (validator_dispatcher.rs:25-33). -/
def DispState.init : DispState := ⟨[], []⟩

/-- `dispatch_by_id` (validator_dispatcher.rs:95-129): if the id is known,
send on the channel at the id's position in `processors`; otherwise push the
id and a fresh channel (`init_validator`) and send on the last channel. -/
def dispatch_by_id (st : DispState) (tup : Nat) (id : Nat) : DispState :=
  match st.processors.findIdx? (fun proc_id => proc_id = id) with
  | some index =>
    { st with channels := st.channels.set index (st.channels.getD index [] ++ [tup]) }
  | none =>
    let processors := st.processors ++ [id]
    let channels := st.channels ++ [[]]
    { processors := processors,
      channels := channels.set (channels.length - 1)
        (channels.getD (channels.length - 1) [] ++ [tup]) }

/-- A sequence of `dispatch_by_id` calls, each given as `(tuple, id)`. -/
def run_dispatch (st : DispState) : List (Nat × Nat) → DispState
  | [] => st
  | (tup, id) :: rest => run_dispatch (dispatch_by_id st tup id) rest

/-! ## ALPIDE words data model

The types of `words/its/alpide_words.rs` (`Barrel`, `LaneDataFrame`,
`AlpideWord`, `AlpideFrameChipData`) are not under `src/`; they are modelled
from the spec (§4.6) below. -/

/-- Modelled from the spec: `enum Barrel` of `words/its/alpide_words.rs` (not
under src/); IB/OB distinguish 1-chip from 7-chip lanes (§3, glossary). -/
inductive Barrel where
  | Inner
  | Outer
deriving DecidableEq, Repr

/-- Modelled from the spec: `LaneDataFrame { lane_id, lane_data }` of
`words/its/alpide_words.rs` (not under src/) — "the payload carved out
per-lane from a readout frame" (§3), bytes as `Nat < 256`. -/
structure LaneDataFrame where
  lane_id : Nat
  lane_data : List Nat
deriving DecidableEq, Repr

/-- Modelled from the spec: `LaneDataFrame::lane_number` (not under src/);
per-lane buffers are "indexed by the low 5 bits of the data-word marker"
(§4.5), so the lane number is the low 5 bits of the lane id. -/
def LaneDataFrame.lane_number (frame : LaneDataFrame) (_ : Barrel) : Nat :=
  frame.lane_id % 32

/-- Modelled from the spec: `enum AlpideWord` of `words/its/alpide_words.rs`
(not under src/), the word kinds of the §4.6 table. -/
inductive AlpideWord where
  | ChipHeader
  | ChipEmptyFrame
  | ChipTrailer
  | RegionHeader
  | DataShort
  | DataLong
  | BusyOn
  | BusyOff
deriving DecidableEq, Repr

/-- Modelled from the spec: `AlpideWord::from_byte` (not under src/),
matching the §4.6 table patterns in priority order (first match wins):
`1010 XXXX` chip header, `1110 XXXX` chip empty frame, `1011 XXXX` chip
trailer, `110X XXXX` region header, `01XX XXXX` data short, `00XX XXXX`
data long, `1111 0001` busy on, `1111 0000` busy off; anything else is an
unknown word. -/
def AlpideWord.from_byte (b : Nat) : Except Unit AlpideWord :=
  if b / 16 = 0b1010 then Except.ok AlpideWord.ChipHeader
  else if b / 16 = 0b1110 then Except.ok AlpideWord.ChipEmptyFrame
  else if b / 16 = 0b1011 then Except.ok AlpideWord.ChipTrailer
  else if b / 32 = 0b110 then Except.ok AlpideWord.RegionHeader
  else if b / 64 = 0b01 then Except.ok AlpideWord.DataShort
  else if b / 64 = 0b00 then Except.ok AlpideWord.DataLong
  else if b = 0xF1 then Except.ok AlpideWord.BusyOn
  else if b = 0xF0 then Except.ok AlpideWord.BusyOff
  else Except.error ()

/-- Modelled from the spec: `AlpideFrameChipData` of
`words/its/alpide_words.rs` (not under src/) — "per chip, exactly one
bunch-counter value for a readout frame" (§3). -/
structure AlpideFrameChipData where
  chip_id : Nat
  bunch_counter : Option Nat
deriving DecidableEq, Repr

/-- Modelled from the spec: `AlpideFrameChipData::from_id_no_data` (not under
src/) — a fresh chip record with no bunch counter. -/
def AlpideFrameChipData.from_id_no_data (chip_id : Nat) : AlpideFrameChipData :=
  { chip_id := chip_id, bunch_counter := none }

/-- Modelled from the spec: `AlpideFrameChipData::store_bc` (not under src/)
— "a chip must record exactly one bc value across its records; conflicting
values flagged" (§4.6). -/
def AlpideFrameChipData.store_bc (cd : AlpideFrameChipData) (bc : Nat) :
    Except String AlpideFrameChipData :=
  match cd.bunch_counter with
  | none => Except.ok { cd with bunch_counter := some bc }
  | some prev =>
    if prev = bc then Except.ok cd
    else
      Except.error ("Chip ID " ++ toString cd.chip_id ++ " has conflicting bunch counters: "
        ++ toString prev ++ " and " ++ toString bc)

/-! ## ALPIDE lane frame decoder (src/analyze/validators/its/alpide_words.rs) -/

/-- Rust `Vec<u8>` debug formatting (`{:?}`): `[a, b, c]`. -/
def fmtNatList (l : List Nat) : String :=
  "[" ++ String.intercalate ", " (l.map toString) ++ "]"

/-- Rust `{:>3?}` formatting: decimal right-aligned to width `w` with spaces. -/
def padLeftWidth (w : Nat) (s : String) : String :=
  (List.replicate (w - s.length) ' ').asString ++ s

/-- Newline + indentation of decoder error messages
(`AlpideLaneFrameDecoder::ERR_MSG_PREFIX`, alpide_words.rs:20). -/
def ERR_MSG_PREFIX : String := "\n\t\t\t"

/-- `struct AlpideLaneFrameDecoder` (alpide_words.rs:5-17). -/
structure AlpideLaneFrameDecoder where
  lane_number : Nat
  is_header_seen : Bool
  last_chip_id : Nat
  last_region_id : Nat
  skip_n_bytes : Nat
  chip_data : List AlpideFrameChipData
  next_is_bc : Bool
  errors : List String
  barrel : Option Barrel
deriving DecidableEq, Repr

/-- `AlpideLaneFrameDecoder::new` (alpide_words.rs:21-37). -/
def AlpideLaneFrameDecoder.new (data_origin : Barrel) : AlpideLaneFrameDecoder :=
  { lane_number := 0
    is_header_seen := false
    last_chip_id := 0
    last_region_id := 0
    skip_n_bytes := 0
    chip_data := []
    next_is_bc := false
    errors := []
    barrel := some data_origin }

/-- The chip-data update of `store_bunch_counter` (alpide_words.rs:144-165):
find the first chip record matching `last_chip_id` and store the bunch
counter into it, or append a fresh record when none matches. -/
def storeBcInList (chip_data : List AlpideFrameChipData) (last_chip_id bc : Nat) :
    Except String (List AlpideFrameChipData) :=
  match chip_data with
  | [] =>
    match (AlpideFrameChipData.from_id_no_data last_chip_id).store_bc bc with
    | Except.ok cd => Except.ok [cd]
    | Except.error msg => Except.error msg
  | cd :: rest =>
    if cd.chip_id = last_chip_id then
      match cd.store_bc bc with
      | Except.ok cd2 => Except.ok (cd2 :: rest)
      | Except.error msg => Except.error msg
    else
      match storeBcInList rest last_chip_id bc with
      | Except.ok rest2 => Except.ok (cd :: rest2)
      | Except.error msg => Except.error msg

/-- `AlpideLaneFrameDecoder::process` (alpide_words.rs:79-142), one byte. -/
def AlpideLaneFrameDecoder.process (s : AlpideLaneFrameDecoder) (alpide_byte : Nat) :
    AlpideLaneFrameDecoder :=
  if s.skip_n_bytes > 0 then
    { s with skip_n_bytes := s.skip_n_bytes - 1 }
  else if s.next_is_bc then
    let s2 :=
      match storeBcInList s.chip_data s.last_chip_id alpide_byte with
      | Except.ok cds => { s with chip_data := cds }
      | Except.error msg => { s with errors := s.errors ++ [msg] }
    { s2 with next_is_bc := false }
  else if !s.is_header_seen && alpide_byte == 0 then
    s -- Padding byte
  else
    match AlpideWord.from_byte alpide_byte with
    | Except.ok AlpideWord.ChipHeader =>
      { s with is_header_seen := true, last_chip_id := alpide_byte % 16, next_is_bc := true }
    | Except.ok AlpideWord.ChipEmptyFrame =>
      { s with is_header_seen := false, last_chip_id := alpide_byte % 16, next_is_bc := true }
    | Except.ok AlpideWord.ChipTrailer => { s with is_header_seen := false }
    | Except.ok AlpideWord.RegionHeader => { s with is_header_seen := true }
    | Except.ok AlpideWord.DataShort => { s with skip_n_bytes := 1 }
    | Except.ok AlpideWord.DataLong => { s with skip_n_bytes := 2 }
    | Except.ok AlpideWord.BusyOn => s
    | Except.ok AlpideWord.BusyOff => s
    | Except.error _ => s -- Unknown ALPIDE word: only logged

/-- The `unique_by(|cd| cd.bunch_counter)` step of `check_bunch_counters`
(Itertools semantics: keep the first chip record for each distinct
bunch-counter value). -/
def uniqueByBcAux (seen : List (Option Nat)) :
    List AlpideFrameChipData → List AlpideFrameChipData
  | [] => []
  | cd :: rest =>
    if cd.bunch_counter ∈ seen then uniqueByBcAux seen rest
    else cd :: uniqueByBcAux (cd.bunch_counter :: seen) rest

/-- `check_bunch_counters` (alpide_words.rs:180-221).  `none` models the
reachable panic: `cd.bunch_counter.unwrap()` on a chip record with no bunch
counter while more than one distinct bunch counter is present. -/
def AlpideLaneFrameDecoder.check_bunch_counters (s : AlpideLaneFrameDecoder) :
    Option (Except String Unit) :=
  let unique_bcs := uniqueByBcAux [] s.chip_data
  if unique_bcs.length > 1 then
    if s.chip_data.any (fun cd => cd.bunch_counter.isNone) then
      none -- `.unwrap()` panics on a chip with no bunch counter
    else
      let bc_to_chip_ids : List (Nat × List Nat) := unique_bcs.filterMap (fun ucd =>
        ucd.bunch_counter.map (fun bc =>
          (bc, (s.chip_data.filter (fun cd => cd.bunch_counter == some bc)).map
            (fun cd => cd.chip_id))))
      let error_str := bc_to_chip_ids.foldl (fun acc p =>
        acc ++ ERR_MSG_PREFIX ++ "Bunch counter: " ++ padLeftWidth 3 (toString p.1)
          ++ " | Chip IDs: " ++ fmtNatList p.2) ""
      some (Except.error error_str)
  else
    some (Except.ok ())

/-- `check_chip_count` (alpide_words.rs:223-243). -/
def AlpideLaneFrameDecoder.check_chip_count (s : AlpideLaneFrameDecoder) :
    Except String Unit :=
  if s.barrel == some Barrel.Inner then
    if s.chip_data.length ≠ 1 then
      Except.error (ERR_MSG_PREFIX ++ "Expected 1 Chip ID in IB but found "
        ++ toString s.chip_data.length ++ ": "
        ++ fmtNatList (s.chip_data.map (fun cd => cd.chip_id)))
    else Except.ok ()
  else if s.chip_data.length ≠ 7 then
    Except.error (ERR_MSG_PREFIX ++ "Expected 7 Chip IDs in OB but found "
      ++ toString s.chip_data.length ++ ": "
      ++ fmtNatList (s.chip_data.map (fun cd => cd.chip_id)))
  else Except.ok ()

/-- `check_chip_id_order` (alpide_words.rs:245-274).  `none` models the
reachable panic: `chip_ids[0]` indexes an empty vec when an Inner-Barrel
lane decoded no chips. -/
def AlpideLaneFrameDecoder.check_chip_id_order (s : AlpideLaneFrameDecoder) :
    Option (Except String Unit) :=
  let chip_ids := s.chip_data.map (fun cd => cd.chip_id)
  match s.barrel with
  | some Barrel.Inner =>
    match chip_ids with
    | [] => none -- `chip_ids[0]`: index out of bounds panic
    | c0 :: _ =>
      if c0 ≠ s.lane_number then
        some (Except.error (ERR_MSG_PREFIX ++ "Expected Chip ID " ++ toString s.lane_number
          ++ " in IB but found " ++ toString c0))
      else some (Except.ok ())
  | some Barrel.Outer =>
    if chip_ids ≠ [0, 1, 2, 3, 4, 5, 6] ∧ chip_ids ≠ [8, 9, 10, 11, 12, 13, 14] then
      some (Except.error (ERR_MSG_PREFIX ++ "Expected [0-6] or [8-14] in OB but found "
        ++ fmtNatList chip_ids))
    else some (Except.ok ())
  | none => some (Except.ok ())

/-- `has_errors` (alpide_words.rs:276-278). -/
def AlpideLaneFrameDecoder.has_errors (s : AlpideLaneFrameDecoder) : Bool :=
  !s.errors.isEmpty

/-- `validate_alpide_frame` (alpide_words.rs:40-77): decode the lane byte by
byte, then run the bunch-counter, chip-count and chip-id-order checks,
collecting error messages.  `none` models a reachable panic in a check
(or `barrel.unwrap()` on a decoder constructed without a barrel). -/
def AlpideLaneFrameDecoder.validate_alpide_frame (s : AlpideLaneFrameDecoder)
    (lane_data_frame : LaneDataFrame) : Option (Except (List String) Unit) :=
  match s.barrel with
  | none => none -- `self.barrel.unwrap()` panics
  | some barrel =>
    let s := { s with lane_number := lane_data_frame.lane_number barrel }
    let s := lane_data_frame.lane_data.foldl AlpideLaneFrameDecoder.process s
    match s.check_bunch_counters with
    | none => none
    | some bc_res =>
      let s :=
        match bc_res with
        | Except.error msg =>
          { s with errors := s.errors ++ ["\n\t\tBunch counters mismatch:" ++ msg] }
        | Except.ok _ => s
      let s :=
        match s.check_chip_count with
        | Except.error msg =>
          { s with errors := s.errors ++ ["\n\t\tChip ID count mismatch:" ++ msg] }
        | Except.ok _ => s
      match s.check_chip_id_order with
      | none => none
      | some order_res =>
        let s :=
          match order_res with
          | Except.error msg =>
            { s with errors := s.errors ++ ["\n\t\tChip ID order mismatch:" ++ msg] }
          | Except.ok _ => s
        if s.errors.isEmpty then some (Except.ok ()) else some (Except.error s.errors)

/-! ## Cross-lane bunch-counter validation (src/analyze/validators/its/alpide.rs) -/

/-- `struct ValidatedLane` (alpide.rs:15-18). -/
structure ValidatedLane where
  lane_id : Nat
  bunch_counter : Nat
deriving DecidableEq, Repr

/-- Itertools `unique()` on `Nat`: keep first occurrences. -/
def uniqueNatAux (seen : List Nat) : List Nat → List Nat
  | [] => []
  | x :: rest =>
    if x ∈ seen then uniqueNatAux seen rest
    else x :: uniqueNatAux (x :: seen) rest

/-- The `(bunch_counter, lanes)` pairs built by `validate_lane_bcs`
(alpide.rs:90-102): for each unique bunch counter in first-occurrence order,
the lane ids carrying it, in lane order. -/
def bcPartitions (validated_lanes : List ValidatedLane) : List (Nat × List Nat) :=
  (uniqueNatAux [] (validated_lanes.map (fun lane => lane.bunch_counter))).map
    (fun bc =>
      (bc, (validated_lanes.filter (fun lane => lane.bunch_counter == bc)).map
        (fun lane => lane.lane_id)))

/-- The report string built by `validate_lane_bcs` (alpide.rs:82-112). -/
def bcMismatchReport (validated_lanes : List ValidatedLane) : String :=
  (bcPartitions validated_lanes).foldl
    (fun acc p =>
      acc ++ "\n\t\tBunch counter: " ++ padLeftWidth 3 (toString p.1)
        ++ " | Lanes: " ++ fmtNatList p.2)
    ("\n\tLane " ++ fmtNatList (validated_lanes.map (fun lane => lane.lane_id))
      ++ " error: Mismatching bunch counters between lanes in same readout frame")

/-- `validate_lane_bcs` (alpide.rs:69-116): when the validated lanes carry
more than one distinct bunch counter, append one mismatch report to the
error messages and all partitioned lane ids to the error-lane-id list. -/
def validate_lane_bcs (validated_lanes : List ValidatedLane)
    (lane_error_msgs : List String) (lane_error_ids : List Nat) :
    List String × List Nat :=
  let unique_bunch_counters :=
    uniqueNatAux [] (validated_lanes.map (fun lane => lane.bunch_counter))
  if unique_bunch_counters.length > 1 then
    (lane_error_msgs ++ [bcMismatchReport validated_lanes],
     lane_error_ids ++ ((bcPartitions validated_lanes).map Prod.snd).flatten)
  else
    (lane_error_msgs, lane_error_ids)

/-- The per-lane loop of `check_alpide_data_frame` (alpide.rs:33-60) with the
per-lane analyzer (`LaneAlpideFrameAnalyzer`, not under src/) abstracted by
its outcome: each lane is given as its lane number together with
`Except.error msgs` (the lane's own drained error messages) or
`Except.ok bc` (lane validated, with bunch counter `bc`).  Returns
`(lane_error_ids, lane_error_msgs, validated_lanes)` in lane order. -/
def analyzeLanes : List (Nat × Except String Nat) →
    List Nat × List String × List ValidatedLane
  | [] => ([], [], [])
  | (lane_number, result) :: rest =>
    let (ids, msgs, validated) := analyzeLanes rest
    match result with
    | Except.error error_msgs =>
      (lane_number :: ids,
       ("\n\tLane " ++ toString lane_number ++ " errors: " ++ error_msgs) :: msgs,
       validated)
    | Except.ok bc =>
      (ids, msgs, { lane_id := lane_number, bunch_counter := bc } :: validated)

/-- `check_alpide_data_frame` (alpide.rs:23-66): analyze every lane, then
compare all validated bunch counters across lanes; returns
`(lane_error_ids, lane_error_msgs)`. -/
def check_alpide_data_frame (lane_results : List (Nat × Except String Nat)) :
    List Nat × List String :=
  let (lane_error_ids, lane_error_msgs, validated_lanes) := analyzeLanes lane_results
  let (msgs, ids) := validate_lane_bcs validated_lanes lane_error_msgs lane_error_ids
  (ids, msgs)

/-! ## Claim theorems -/

/-- The target system of an (older CLI) check command. -/
def Check.system : Check → Option System
  | Check.All target => target.system
  | Check.Sanity target => target.system

/-- Claim C10: `skip_payload()` returns true exactly when the configured view
is the RDH view, or a check command (all or sanity) is set with no target
system; in every other configuration it returns false. -/
theorem skip_payload_true_iff (view : Option View) (check : Option Check)
    (om : DataOutputMode) :
    skip_payload view check om = true ↔
      (view = some View.Rdh ∨ ∃ c, check = some c ∧ Check.system c = none) := by
  rcases view with _ | v
  · rcases check with _ | c
    · simp [skip_payload]
    · rcases c with ⟨_ | sys⟩ | ⟨_ | sys⟩ <;> simp [skip_payload, Check.system]
  · rcases v with _ | _ | _
    · simp [skip_payload]
    · rcases check with _ | c
      · simp [skip_payload]
      · rcases c with ⟨_ | sys⟩ | ⟨_ | sys⟩ <;> simp [skip_payload, Check.system]
    · rcases check with _ | c
      · simp [skip_payload]
      · rcases c with ⟨_ | sys⟩ | ⟨_ | sys⟩ <;> simp [skip_payload, Check.system]

/-- Claim C8: `main` returns exit code 1 when the reader cannot be
initialized, 2 when the version-dispatched processing run errors, 3 when the
first RDH's `header_id` is neither 6 nor 7, and 0 when processing
succeeds. -/
theorem main_exit_codes (reader : Except String Unit) (rdh_version : Nat)
    (process_result : Except String Unit) :
    ((∃ e, reader = Except.error e) →
      main_exit reader rdh_version process_result = 1) ∧
    (reader = Except.ok () → (rdh_version = 6 ∨ rdh_version = 7) →
      (∃ e, process_result = Except.error e) →
      main_exit reader rdh_version process_result = 2) ∧
    (reader = Except.ok () → rdh_version ≠ 6 → rdh_version ≠ 7 →
      main_exit reader rdh_version process_result = 3) ∧
    (reader = Except.ok () → (rdh_version = 6 ∨ rdh_version = 7) →
      process_result = Except.ok () →
      main_exit reader rdh_version process_result = 0) := by
  refine ⟨?_, ?_, ?_, ?_⟩
  · rintro ⟨e, rfl⟩
    rfl
  · rintro rfl (rfl | rfl) ⟨e, rfl⟩ <;> rfl
  · rintro rfl h6 h7
    simp [main_exit, init_processing, h6, h7]
  · rintro rfl (rfl | rfl) rfl <;> rfl

/-- Witness for `main_exit_codes` at concrete inputs. -/
theorem main_exit_codes_witness :
    main_exit (Except.error "no reader") 7 (Except.ok ()) = 1 ∧
    main_exit (Except.ok ()) 7 (Except.error "processing failed") = 2 ∧
    main_exit (Except.ok ()) 5 (Except.ok ()) = 3 ∧
    main_exit (Except.ok ()) 6 (Except.ok ()) = 0 :=
  ⟨(main_exit_codes (Except.error "no reader") 7 (Except.ok ())).1 ⟨_, rfl⟩,
   (main_exit_codes (Except.ok ()) 7 (Except.error "processing failed")).2.1 rfl
     (Or.inr rfl) ⟨_, rfl⟩,
   (main_exit_codes (Except.ok ()) 5 (Except.ok ())).2.2.1 rfl (by decide) (by decide),
   (main_exit_codes (Except.ok ()) 6 (Except.ok ())).2.2.2 rfl (Or.inl rfl) rfl⟩

/-- Claim C5: the dispatch id is the RDH's full `fee_id` exactly when the
configured check is `all` targeting ITS-stave; in every other configuration
it is the `link_id` (widened to 16 bits, value unchanged). -/
theorem dispatch_id_spec (check : Option CheckCommands) (fee_id link_id : Nat) :
    (check = some (CheckCommands.All (some System.ITS_Stave)) →
      dispatch_id check fee_id link_id = fee_id) ∧
    (check ≠ some (CheckCommands.All (some System.ITS_Stave)) →
      dispatch_id check fee_id link_id = link_id) := by
  constructor
  · rintro rfl
    rfl
  · intro h
    rcases check with _ | c
    · rfl
    · rcases c with (_ | sys) | (_ | sys)
      · rfl
      · rcases sys with _ | _
        · rfl
        · exact absurd rfl h
      · rfl
      · rcases sys with _ | _ <;> rfl

/-- Witness for `dispatch_id_spec` at concrete inputs. -/
theorem dispatch_id_spec_witness :
    dispatch_id (some (CheckCommands.All (some System.ITS_Stave))) 524 3 = 524 ∧
    dispatch_id (some (CheckCommands.Sanity (some System.ITS_Stave))) 524 3 = 3 :=
  ⟨(dispatch_id_spec (some (CheckCommands.All (some System.ITS_Stave))) 524 3).1 rfl,
   (dispatch_id_spec (some (CheckCommands.Sanity (some System.ITS_Stave))) 524 3).2
     (by decide)⟩

/-- Claim C7: `validate_args` errors on `check sanity its-stave`; errors when
an ITS trigger period is set but the check command is not `all its-stave`
(including no check command or no target system); and a `check all
its-stave` configuration with a trigger period is not rejected by either
rule (it validates whenever the unrelated exit-code and stats-file checks
pass). -/
theorem validate_args_spec (cfg : Config) :
    (cfg.check = some (CheckCommands.Sanity (some System.ITS_Stave)) →
      ∃ e, cfg.validate_args = Except.error e) ∧
    (cfg.check_its_trigger_period.isSome = true →
      cfg.check ≠ some (CheckCommands.All (some System.ITS_Stave)) →
      ∃ e, cfg.validate_args = Except.error e) ∧
    (cfg.check = some (CheckCommands.All (some System.ITS_Stave)) →
      cfg.any_errors_exit_code ≠ some 0 →
      (match cfg.input_stats_file with
       | some path => path.endsWith ".json" = true ∨ path.endsWith ".toml" = true
       | none => True) →
      cfg.validate_args = Except.ok ()) := by
  obtain ⟨chk, trig, code, stats⟩ := cfg
  refine ⟨?_, ?_, ?_⟩
  · rintro rfl
    exact ⟨_, rfl⟩
  · intro htrig hne
    rcases htrig' : trig with _ | t
    · rw [htrig'] at htrig
      simp at htrig
    · rcases chk with _ | c
      · exact ⟨_, rfl⟩
      · rcases c with (_ | sys) | (_ | sys)
        · exact ⟨_, rfl⟩
        · rcases sys with _ | _
          · exact ⟨_, rfl⟩
          · exact absurd rfl hne
        · exact ⟨_, rfl⟩
        · rcases sys with _ | _ <;> exact ⟨_, rfl⟩
  · rintro rfl hcode hstats
    show Config.validate_args_tail _ = Except.ok ()
    unfold Config.validate_args_tail
    rcases code with _ | v
    · simp only []
      rcases stats with _ | p
      · rfl
      · rcases hstats with h | h <;> simp [h]
    · have hv : v ≠ 0 := fun h => hcode (by rw [h])
      simp only [beq_iff_eq, hv, if_false]
      rcases stats with _ | p
      · rfl
      · rcases hstats with h | h <;> simp [h]

/-- Witness for `validate_args_spec` at concrete configurations. -/
theorem validate_args_spec_witness :
    (∃ e, Config.validate_args
      ⟨some (CheckCommands.Sanity (some System.ITS_Stave)), none, none, none⟩ =
        Except.error e) ∧
    (∃ e, Config.validate_args
      ⟨some (CheckCommands.All (some System.ITS)), some 1, none, none⟩ =
        Except.error e) ∧
    Config.validate_args
      ⟨some (CheckCommands.All (some System.ITS_Stave)), some 1, none, none⟩ =
        Except.ok () :=
  ⟨(validate_args_spec _).1 rfl,
   (validate_args_spec
      ⟨some (CheckCommands.All (some System.ITS)), some 1, none, none⟩).2.1
     rfl (by decide),
   (validate_args_spec
      ⟨some (CheckCommands.All (some System.ITS_Stave)), some 1, none, none⟩).2.2
     rfl (by decide) trivial⟩

/-- Claim C2: for an Inner-Barrel lane the chip-count check passes iff
exactly 1 chip was decoded and the chip-id check passes iff the first
decoded chip's id equals the lane number; for an Outer-Barrel lane the
chip-count check passes iff exactly 7 chips were decoded and the chip-id
check passes iff the decoded chip-id sequence is exactly `[0..6]` or
`[8..14]`. -/
theorem chip_checks_spec (s : AlpideLaneFrameDecoder) :
    (s.barrel = some Barrel.Inner →
      ((s.check_chip_count = Except.ok ()) ↔ s.chip_data.length = 1) ∧
      (∀ cd rest, s.chip_data = cd :: rest →
        (s.check_chip_id_order = some (Except.ok ()) ↔ cd.chip_id = s.lane_number))) ∧
    (s.barrel = some Barrel.Outer →
      ((s.check_chip_count = Except.ok ()) ↔ s.chip_data.length = 7) ∧
      (s.check_chip_id_order = some (Except.ok ()) ↔
        (s.chip_data.map (fun cd => cd.chip_id) = [0, 1, 2, 3, 4, 5, 6] ∨
         s.chip_data.map (fun cd => cd.chip_id) = [8, 9, 10, 11, 12, 13, 14]))) := by
  constructor
  · intro hb
    constructor
    · simp only [AlpideLaneFrameDecoder.check_chip_count, hb, beq_self_eq_true, if_true]
      by_cases hl : s.chip_data.length = 1
      · simp [hl]
      · simp [hl]
    · intro cd rest hcd
      simp only [AlpideLaneFrameDecoder.check_chip_id_order, hb, hcd, List.map_cons]
      by_cases hid : cd.chip_id = s.lane_number
      · simp [hid]
      · simp [hid]
  · intro hb
    constructor
    · have hne : (s.barrel == some Barrel.Inner) = false := by rw [hb]; rfl
      simp only [AlpideLaneFrameDecoder.check_chip_count, hne, Bool.false_eq_true, if_false]
      by_cases hl : s.chip_data.length = 7
      · simp [hl]
      · simp [hl]
    · simp only [AlpideLaneFrameDecoder.check_chip_id_order, hb]
      by_cases h1 : s.chip_data.map (fun cd => cd.chip_id) = [0, 1, 2, 3, 4, 5, 6]
      · simp [h1]
      · by_cases h2 : s.chip_data.map (fun cd => cd.chip_id) = [8, 9, 10, 11, 12, 13, 14]
        · simp [h1, h2]
        · simp [h1, h2]

/-- Witness for `chip_checks_spec`: an Inner-Barrel decoder state with one
decoded chip whose id equals the lane number passes both checks. -/
theorem chip_checks_spec_witness :
    AlpideLaneFrameDecoder.check_chip_count
      { lane_number := 0, is_header_seen := false, last_chip_id := 0, last_region_id := 0,
        skip_n_bytes := 0, chip_data := [⟨0, some 5⟩], next_is_bc := false, errors := [],
        barrel := some Barrel.Inner } = Except.ok () ∧
    AlpideLaneFrameDecoder.check_chip_id_order
      { lane_number := 0, is_header_seen := false, last_chip_id := 0, last_region_id := 0,
        skip_n_bytes := 0, chip_data := [⟨0, some 5⟩], next_is_bc := false, errors := [],
        barrel := some Barrel.Inner } = some (Except.ok ()) :=
  ⟨((chip_checks_spec _).1 rfl).1.mpr rfl,
   (((chip_checks_spec _).1 rfl).2 ⟨0, some 5⟩ [] rfl).mpr rfl⟩

/-- Claim C3 (code bug): an Inner-Barrel lane whose bytes decode no chip at
all (here a single BusyOn byte `0xF1`) drives `validate_alpide_frame` into
the `chip_ids[0]` index-out-of-bounds panic of `check_chip_id_order`
(modelled as `none`) instead of returning the accumulated error messages. -/
theorem validate_alpide_frame_ib_no_chips_panics :
    (AlpideLaneFrameDecoder.new Barrel.Inner).validate_alpide_frame
      { lane_id := 0, lane_data := [0xF1] } = none := rfl

/-- Counterexample to claim C6: after the lane prefix `A0 05 B0` (chip
header, bunch counter, chip trailer) the decoder has no pending skip or
bunch-counter byte, yet the next `0x00` byte — which comes after the first
chip header of the lane — is still ignored as padding (the state is
unchanged), although `0x00` decodes as an ALPIDE word (DataLong, which
would set `skip_n_bytes` to 2). -/
theorem process_zero_after_trailer_cex :
    [0xA0, 5, 0xB0].foldl AlpideLaneFrameDecoder.process
        (AlpideLaneFrameDecoder.new Barrel.Inner) =
      { lane_number := 0, is_header_seen := false, last_chip_id := 0, last_region_id := 0,
        skip_n_bytes := 0, chip_data := [⟨0, some 5⟩], next_is_bc := false, errors := [],
        barrel := some Barrel.Inner } ∧
    AlpideLaneFrameDecoder.process
      { lane_number := 0, is_header_seen := false, last_chip_id := 0, last_region_id := 0,
        skip_n_bytes := 0, chip_data := [⟨0, some 5⟩], next_is_bc := false, errors := [],
        barrel := some Barrel.Inner } 0 =
      { lane_number := 0, is_header_seen := false, last_chip_id := 0, last_region_id := 0,
        skip_n_bytes := 0, chip_data := [⟨0, some 5⟩], next_is_bc := false, errors := [],
        barrel := some Barrel.Inner } ∧
    AlpideWord.from_byte 0 = Except.ok AlpideWord.DataLong :=
  ⟨rfl, rfl, rfl⟩

/-- Claim C6 (amended): a `0x00` byte that is not consumed as a skipped data
byte or a pending bunch-counter byte is ignored as padding exactly when no
chip header or region header is currently open (`is_header_seen` is false —
before the first chip header, and also after a chip trailer or chip empty
frame); when a header is open it is decoded as an ALPIDE word (DataLong). -/
theorem process_zero_byte_spec (s : AlpideLaneFrameDecoder)
    (h1 : s.skip_n_bytes = 0) (h2 : s.next_is_bc = false) :
    (s.is_header_seen = false → s.process 0 = s) ∧
    (s.is_header_seen = true → s.process 0 = { s with skip_n_bytes := 2 }) := by
  constructor <;> intro hh <;>
    simp [AlpideLaneFrameDecoder.process, h1, h2, hh, AlpideWord.from_byte]

/-- Witness for `process_zero_byte_spec` at concrete decoder states. -/
theorem process_zero_byte_spec_witness :
    AlpideLaneFrameDecoder.process (AlpideLaneFrameDecoder.new Barrel.Inner) 0 =
      AlpideLaneFrameDecoder.new Barrel.Inner ∧
    AlpideLaneFrameDecoder.process
      { AlpideLaneFrameDecoder.new Barrel.Inner with is_header_seen := true } 0 =
      { AlpideLaneFrameDecoder.new Barrel.Inner with
          is_header_seen := true, skip_n_bytes := 2 } :=
  ⟨(process_zero_byte_spec (AlpideLaneFrameDecoder.new Barrel.Inner) rfl rfl).1 rfl,
   (process_zero_byte_spec
      { AlpideLaneFrameDecoder.new Barrel.Inner with is_header_seen := true }
      rfl rfl).2 rfl⟩

/-! ### Helper lemmas on first-occurrence uniqueness -/

lemma mem_uniqueNatAux (seen : List Nat) (l : List Nat) (x : Nat) :
    x ∈ uniqueNatAux seen l ↔ x ∈ l ∧ x ∉ seen := by
  induction l generalizing seen with
  | nil => simp [uniqueNatAux]
  | cons a rest ih =>
    simp only [uniqueNatAux]
    by_cases ha : a ∈ seen
    · rw [if_pos ha, ih]
      simp only [List.mem_cons]
      constructor
      · rintro ⟨hx, hns⟩
        exact ⟨Or.inr hx, hns⟩
      · rintro ⟨rfl | hx, hns⟩
        · exact absurd ha hns
        · exact ⟨hx, hns⟩
    · rw [if_neg ha]
      simp only [List.mem_cons, ih, List.mem_cons]
      constructor
      · rintro (rfl | ⟨hx, hns⟩)
        · exact ⟨Or.inl rfl, ha⟩
        · exact ⟨Or.inr hx, fun hs => hns (Or.inr hs)⟩
      · rintro ⟨rfl | hx, hns⟩
        · exact Or.inl rfl
        · by_cases hxa : x = a
          · exact Or.inl hxa
          · exact Or.inr ⟨hx, fun hs => (by
              rcases hs with h | h
              · exact hxa h
              · exact hns h)⟩

lemma nodup_uniqueNatAux (seen l : List Nat) : (uniqueNatAux seen l).Nodup := by
  induction l generalizing seen with
  | nil => simp [uniqueNatAux]
  | cons a rest ih =>
    simp only [uniqueNatAux]
    by_cases ha : a ∈ seen
    · rw [if_pos ha]
      exact ih seen
    · rw [if_neg ha]
      refine List.nodup_cons.mpr ⟨?_, ih _⟩
      rw [mem_uniqueNatAux]
      rintro ⟨_, hns⟩
      exact hns (List.mem_cons_self a seen)

lemma length_uniqueNat_le_one_iff (l : List Nat) :
    (uniqueNatAux [] l).length ≤ 1 ↔ ∀ a ∈ l, ∀ b ∈ l, a = b := by
  have hm : ∀ x, x ∈ uniqueNatAux [] l ↔ x ∈ l := by
    intro x
    rw [mem_uniqueNatAux]
    simp
  constructor
  · intro hlen a ha b hb
    rcases hu : uniqueNatAux [] l with _ | ⟨x, u⟩
    · exact absurd ((hm a).mpr ha) (by rw [hu]; simp)
    · have hn : u = [] := by
        rw [hu] at hlen
        simp only [List.length_cons] at hlen
        exact List.length_eq_zero.mp (by omega)
      have ha2 : a ∈ uniqueNatAux [] l := (hm a).mpr ha
      have hb2 : b ∈ uniqueNatAux [] l := (hm b).mpr hb
      rw [hu, hn] at ha2 hb2
      simp only [List.mem_singleton] at ha2 hb2
      rw [ha2, hb2]
  · intro hall
    by_contra hgt
    push_neg at hgt
    rcases hu : uniqueNatAux [] l with _ | ⟨x, _ | ⟨y, u⟩⟩
    · rw [hu] at hgt
      simp at hgt
    · rw [hu] at hgt
      simp at hgt
    · have hx : x ∈ l := (hm x).mp (by rw [hu]; exact List.mem_cons_self _ _)
      have hy : y ∈ l := (hm y).mp (by rw [hu]; simp)
      have hnd := nodup_uniqueNatAux [] l
      rw [hu] at hnd
      have hxy : x ≠ y := by
        rcases List.nodup_cons.mp hnd with ⟨hnx, _⟩
        exact fun he => hnx (he ▸ List.mem_cons_self y u)
      exact hxy (hall x hx y hy)

/-- Claim C1: after all lanes of a readout frame are analyzed, a cross-lane
bunch-counter mismatch error is added iff the lanes that validated without
their own errors carry at least two distinct bunch counters; the report then
added is the one naming every `(bc, lane_set)` partition (a pair is a
partition iff `bc` is carried by some validated lane and the set is exactly
the validated lanes carrying it), and the lane ids of every partition are
appended to the error-lane-id list; when all error-free lanes share one
bunch counter nothing is added. -/
theorem check_alpide_data_frame_cross_lane
    (lane_results : List (Nat × Except String Nat)) :
    ((∃ l1 ∈ (analyzeLanes lane_results).2.2, ∃ l2 ∈ (analyzeLanes lane_results).2.2,
        l1.bunch_counter ≠ l2.bunch_counter) →
      check_alpide_data_frame lane_results =
        ((analyzeLanes lane_results).1 ++
           ((bcPartitions (analyzeLanes lane_results).2.2).map Prod.snd).flatten,
         (analyzeLanes lane_results).2.1 ++
           [bcMismatchReport (analyzeLanes lane_results).2.2]) ∧
      (∀ bc lanes, (bc, lanes) ∈ bcPartitions (analyzeLanes lane_results).2.2 ↔
        ((∃ l ∈ (analyzeLanes lane_results).2.2, l.bunch_counter = bc) ∧
         lanes = ((analyzeLanes lane_results).2.2.filter
            (fun lane => lane.bunch_counter == bc)).map (fun lane => lane.lane_id)))) ∧
    ((∀ l1 ∈ (analyzeLanes lane_results).2.2, ∀ l2 ∈ (analyzeLanes lane_results).2.2,
        l1.bunch_counter = l2.bunch_counter) →
      check_alpide_data_frame lane_results =
        ((analyzeLanes lane_results).1, (analyzeLanes lane_results).2.1)) := by
  rcases hres : analyzeLanes lane_results with ⟨ids, msgs, vs⟩
  have hunfold : check_alpide_data_frame lane_results =
      (let p := validate_lane_bcs vs msgs ids
       (p.2, p.1)) := by
    simp only [check_alpide_data_frame, hres]
  simp only [hres]
  constructor
  · rintro ⟨l1, hl1, l2, hl2, hne⟩
    have hgt : 1 < (uniqueNatAux [] (vs.map (fun lane => lane.bunch_counter))).length := by
      by_contra hle
      push_neg at hle
      have hall := (length_uniqueNat_le_one_iff _).mp hle
      exact hne (hall l1.bunch_counter (List.mem_map_of_mem _ hl1)
        l2.bunch_counter (List.mem_map_of_mem _ hl2))
    constructor
    · rw [hunfold]
      simp only [validate_lane_bcs, if_pos hgt]
    · intro bc lanes
      simp only [bcPartitions, List.mem_map]
      constructor
      · rintro ⟨b, hb, heq⟩
        rw [Prod.mk.injEq] at heq
        obtain ⟨rfl, rfl⟩ := heq
        rw [mem_uniqueNatAux] at hb
        rcases List.mem_map.mp hb.1 with ⟨l, hl, hlc⟩
        exact ⟨⟨l, hl, hlc⟩, rfl⟩
      · rintro ⟨⟨l, hl, hlc⟩, rfl⟩
        refine ⟨bc, ?_, rfl⟩
        rw [mem_uniqueNatAux]
        exact ⟨hlc ▸ List.mem_map_of_mem _ hl, by simp⟩
  · intro hall
    have hle : (uniqueNatAux [] (vs.map (fun lane => lane.bunch_counter))).length ≤ 1 := by
      rw [length_uniqueNat_le_one_iff]
      intro a ha b hb
      rcases List.mem_map.mp ha with ⟨la, hla, rfl⟩
      rcases List.mem_map.mp hb with ⟨lb, hlb, rfl⟩
      exact hall la hla lb hlb
    rw [hunfold]
    simp only [validate_lane_bcs, if_neg (by omega : ¬1 <
      (uniqueNatAux [] (vs.map (fun lane => lane.bunch_counter))).length)]

/-- Witness for `check_alpide_data_frame_cross_lane`: two validated lanes
with distinct bunch counters produce the mismatch report and both lane ids;
two validated lanes sharing one bunch counter produce nothing. -/
theorem check_alpide_data_frame_cross_lane_witness :
    check_alpide_data_frame [(2, Except.ok 5), (3, Except.ok 9)] =
      ([2, 3], [bcMismatchReport [⟨2, 5⟩, ⟨3, 9⟩]]) ∧
    check_alpide_data_frame [(2, Except.ok 5), (3, Except.ok 5)] = ([], []) :=
  ⟨((check_alpide_data_frame_cross_lane [(2, Except.ok 5), (3, Except.ok 9)]).1
      (by decide)).1,
   (check_alpide_data_frame_cross_lane [(2, Except.ok 5), (3, Except.ok 5)]).2
      (by decide)⟩

/-! ### Helper lemmas for the dispatcher invariant -/

/-- The dispatcher routing invariant: known ids are pairwise distinct and in
bijection (by position) with the worker channels. -/
def DispInv (st : DispState) : Prop :=
  st.processors.Nodup ∧ st.processors.length = st.channels.length

lemma set_append_singleton (l : List (List Nat)) (a b : List Nat) :
    (l ++ [a]).set l.length b = l ++ [b] := by
  induction l with
  | nil => rfl
  | cons x xs ih => simp [ih]

lemma getD_append_singleton (l : List (List Nat)) (a : List Nat) :
    (l ++ [a]).getD l.length [] = a := by
  simp [List.getD_eq_getElem?_getD, List.getElem?_concat_length]

lemma getD_length_self (l : List (List Nat)) : l.getD l.length [] = [] := by
  simp [List.getD_eq_getElem?_getD, List.getElem?_eq_none (Nat.le_refl l.length)]

lemma dispatch_by_id_step (st : DispState) (tup id : Nat) (h : DispInv st) :
    DispInv (dispatch_by_id st tup id) ∧
    ∃ i, (dispatch_by_id st tup id).processors.findIdx? (fun proc_id => proc_id = id) =
        some i ∧
      i < (dispatch_by_id st tup id).channels.length ∧
      (dispatch_by_id st tup id).channels.getD i [] = st.channels.getD i [] ++ [tup] ∧
      ∀ j, j ≠ i →
        (dispatch_by_id st tup id).channels.getD j [] = st.channels.getD j [] := by
  obtain ⟨hnd, hlen⟩ := h
  rcases hfind : st.processors.findIdx? (fun proc_id => proc_id = id) with _ | i
  · -- unknown id: a fresh worker and channel are appended, the tuple goes last
    have hnotmem : id ∉ st.processors := by
      intro hmem
      have := List.findIdx?_eq_none_iff.mp hfind id hmem
      simp at this
    have hset : ((st.channels ++ [[]]).set ((st.channels ++ [[]]).length - 1)
        ((st.channels ++ [[]]).getD ((st.channels ++ [[]]).length - 1) [] ++ [tup])) =
        st.channels ++ [[tup]] := by
      have hl : (st.channels ++ [[]]).length - 1 = st.channels.length := by simp
      rw [hl, getD_append_singleton, set_append_singleton]
      simp
    simp only [dispatch_by_id, hfind, hset]
    refine ⟨⟨?_, by simp [hlen]⟩, ?_⟩
    · exact List.nodup_append.mpr ⟨hnd, List.nodup_singleton id,
        fun a ha hb => hnotmem ((List.mem_singleton.mp hb) ▸ ha)⟩
    · refine ⟨st.processors.length, ?_, by simp [hlen], ?_, ?_⟩
      · rw [List.findIdx?_append, hfind]
        simp
      · rw [hlen, getD_append_singleton, getD_length_self]
        rfl
      · intro j hj
        rcases Nat.lt_or_ge j st.channels.length with hlt | hge
        · simp [List.getD_eq_getElem?_getD, List.getElem?_append_left hlt]
        · have hgt : st.channels.length < j := by omega
          have h1 : (st.channels ++ [[tup]])[j]? = none := by
            apply List.getElem?_eq_none
            simp
            omega
          have h2 : st.channels[j]? = none := List.getElem?_eq_none (by omega)
          simp [List.getD_eq_getElem?_getD, h1, h2]
  · -- known id: the tuple is sent on the channel at the id's index
    have hi : i < st.processors.length := by
      rcases List.findIdx?_eq_some_iff_getElem.mp hfind with ⟨hlt, _⟩
      exact hlt
    have hic : i < st.channels.length := hlen ▸ hi
    simp only [dispatch_by_id, hfind]
    refine ⟨⟨hnd, by simp [hlen]⟩, ⟨i, rfl, by simpa using hic, ?_, ?_⟩⟩
    · simp [List.getD_eq_getElem?_getD, List.getElem?_set_self hic]
    · intro j hj
      simp [List.getD_eq_getElem?_getD, List.getElem?_set_ne (Ne.symm hj)]

lemma run_dispatch_inv (inputs : List (Nat × Nat)) :
    ∀ st : DispState, DispInv st → DispInv (run_dispatch st inputs) := by
  induction inputs with
  | nil => exact fun st h => h
  | cons x rest ih =>
    rintro st h
    obtain ⟨tup, id⟩ := x
    exact ih _ (dispatch_by_id_step st tup id h).1

/-- Claim C9: after any sequence of `dispatch_by_id` calls starting from a
newly constructed dispatcher, the processors list is pairwise distinct and
has the same length as the channel list, and the next dispatched tuple is
sent on exactly one channel: the channel whose (in-bounds) index is the
position of the tuple's dispatch id in the processors list. -/
theorem dispatcher_routing_invariant (inputs : List (Nat × Nat)) (tup id : Nat) :
    DispInv (run_dispatch DispState.init inputs) ∧
    (∃ i,
      (dispatch_by_id (run_dispatch DispState.init inputs) tup id).processors.findIdx?
          (fun proc_id => proc_id = id) = some i ∧
      i < (dispatch_by_id (run_dispatch DispState.init inputs) tup id).channels.length ∧
      (dispatch_by_id (run_dispatch DispState.init inputs) tup id).channels.getD i [] =
        (run_dispatch DispState.init inputs).channels.getD i [] ++ [tup] ∧
      ∀ j, j ≠ i →
        (dispatch_by_id (run_dispatch DispState.init inputs) tup id).channels.getD j [] =
          (run_dispatch DispState.init inputs).channels.getD j []) ∧
    DispInv (dispatch_by_id (run_dispatch DispState.init inputs) tup id) := by
  have hinit : DispInv DispState.init := ⟨List.nodup_nil, rfl⟩
  have hrun := run_dispatch_inv inputs DispState.init hinit
  have hstep := dispatch_by_id_step (run_dispatch DispState.init inputs) tup id hrun
  exact ⟨hrun, hstep.2, hstep.1⟩

end Fastpasta
